import Mathlib

/-!
# Verification of the gmail-todo-agent decision pipeline

Shallow embedding of the email classification-and-dedup pipeline:
the Gmail label helpers (`hasLabel`, `getLabelId`, `addLabelToEmail`,
`markEmailProcessed`), the rule engine (`evaluateRule`,
`processEmailWithRules`), the AI classifier (`classifyEmail`,
`validateAndNormalizeResult`), the Todoist task construction
(`createTask`, `createTaskFromEmail`), the per-email processing pipeline
(`processEmail` and its branches), and the batch scheduler
(`runBatchProcessing`).

Modelling conventions:
* JavaScript strings are Lean `String`s; the string operations the code
  uses (`toLowerCase`, `includes`, `trim`, `split`, the few regexes) are
  defined below on the character list, matching the JavaScript semantics
  on the ASCII data the program handles.
* JavaScript numbers are modelled as `ℚ` (the values the code computes
  with are small exact fractions, where binary floating point is exact
  for every comparison the code performs). Divisions are written with
  `mkRat`, which agrees with `/` on `ℚ` (see `mkRat_eq_natDiv`): `mkRat`
  is used because it evaluates inside the kernel.
* Effects (Gmail label reads/writes, Todoist task creation) are explicit
  state passing over a `World`; outcomes of the external services
  (the language model call, the Todoist create-task call) are oracle
  functions in an `Env`. The `World` additionally keeps an append-only
  log of attempted label writes (`labelWrites`), of task-creation calls
  (`taskAttempts`) and of the task ids returned on success
  (`createdTaskIds`), which are exactly the observables the claims
  speak about.
* Wall-clock quantities (elapsed processing time, `Date` rendering) are
  parameters or abstracted rendering functions: no claim depends on
  them.
-/

namespace GmailTodo

/-! ## JavaScript string primitives (character-list based, kernel-computable) -/

/-- Whitespace class of JavaScript (`\s`, also used by `trim`), restricted to
the ASCII whitespace characters occurring in the modelled data. -/
def isWs (c : Char) : Bool :=
  c = ' ' || c = '\t' || c = '\n' || c = '\r' || c = '\x0b' || c = '\x0c'

/-- ASCII lower-casing of one character, as `String.prototype.toLowerCase`
acts on the ASCII range. -/
def lcChar (c : Char) : Char :=
  if 65 ≤ c.toNat ∧ c.toNat ≤ 90 then Char.ofNat (c.toNat + 32) else c

/-- JavaScript `s.toLowerCase()` on ASCII data. -/
def jsToLower (s : String) : String := ⟨s.data.map lcChar⟩

/-- JavaScript `s.trim()`: strip leading and trailing whitespace. -/
def jsTrim (s : String) : String :=
  ⟨((s.data.dropWhile isWs).reverse.dropWhile isWs).reverse⟩

/-- Is `needle` a prefix of `hay` (on character lists)? -/
def isPrefixL : List Char → List Char → Bool
  | [], _ => true
  | _ :: _, [] => false
  | a :: as, b :: bs => a == b && isPrefixL as bs

/-- Is `needle` a contiguous sublist of `hay`? -/
def isSubL (needle : List Char) : List Char → Bool
  | [] => needle.isEmpty
  | l@(_ :: rest) => isPrefixL needle l || isSubL needle rest

/-- JavaScript `hay.includes(sub)`. -/
def jsIncludes (hay sub : String) : Bool := isSubL sub.data hay.data

/-- JavaScript `s.split(sep)` for a one-character separator. -/
def splitCharsOn (sep : Char) : List Char → List (List Char)
  | [] => [[]]
  | c :: rest =>
    let r := splitCharsOn sep rest
    if c = sep then [] :: r
    else
      match r with
      | h :: t => (c :: h) :: t
      | [] => [[c]]

/-- JavaScript `s.split(sep)` returning strings. -/
def jsSplit (s : String) (sep : Char) : List String :=
  (splitCharsOn sep s.data).map String.mk

/-- The regex replace `subject.replace(/^(re:|fwd?:)\s*/i, '')`: strip one
leading `re:`, `fw:` or `fwd:` (case-insensitive) together with the
whitespace after it. -/
def stripReFwdPrefix (s : String) : String :=
  let ls := jsToLower s
  if ls.data.take 3 = "re:".data then ⟨(s.data.drop 3).dropWhile isWs⟩
  else if ls.data.take 3 = "fw:".data then ⟨(s.data.drop 3).dropWhile isWs⟩
  else if ls.data.take 4 = "fwd:".data then ⟨(s.data.drop 4).dropWhile isWs⟩
  else s

/-! ## JavaScript values

The dynamic values flowing out of `JSON.parse` are modelled by `JVal`.
The modelled value domain covers `undefined`, `null`, booleans, numbers
and strings; `Number(s)` of a *numeric* string and object/array values in
scalar positions are outside the modelled domain (the classifier prompt
requests plain JSON scalars in all the positions involved). -/

inductive JVal where
  | undef
  | jnull
  | jbool (b : Bool)
  | jnum (q : ℚ)
  | jstr (s : String)
deriving DecidableEq

/-- JavaScript truthiness (`Boolean(v)`). -/
def jsTruthy : JVal → Bool
  | .undef => false
  | .jnull => false
  | .jbool b => b
  | .jnum q => decide (q ≠ 0)
  | .jstr s => decide (s ≠ "")

/-- JavaScript `Number(v)`; `none` models `NaN`. -/
def jsToNumber : JVal → Option ℚ
  | .undef => none
  | .jnull => some 0
  | .jbool b => some (if b then 1 else 0)
  | .jnum q => some q
  | .jstr _ => none

/-- JavaScript `Number(v) || d`: both `NaN` and `0` are falsy and fall back
to the default `d`. -/
def jsNumORelse (v : JVal) (d : ℚ) : ℚ :=
  match jsToNumber v with
  | none => d
  | some q => if q = 0 then d else q

/-- JavaScript `a || b` on values. -/
def jsOr (a b : JVal) : JVal := if jsTruthy a then a else b

/-- JavaScript `String(v)`. The formatting of a number is abstracted by the
`ℚ` printer (no modelled value reaches that case in any claim). -/
def jsToString : JVal → String
  | .undef => "undefined"
  | .jnull => "null"
  | .jbool b => if b then "true" else "false"
  | .jnum q => toString q
  | .jstr s => s

/-- JavaScript `Math.min`. -/
def mathMin (a b : ℚ) : ℚ := if a ≤ b then a else b

/-- JavaScript `Math.max`. -/
def mathMax (a b : ℚ) : ℚ := if a ≤ b then b else a

/-- `mkRat m n` is the division `m / n` on `ℚ` (for the `n > 0` uses below);
the definitions use `mkRat` because it evaluates inside the kernel. -/
theorem mkRat_eq_natDiv (m n : ℕ) : mkRat m n = (m : ℚ) / (n : ℚ) := by
  rw [Rat.mkRat_eq_div]
  norm_num

/-! ## Data model (`src/core/types.ts`)

The TypeScript field names `from` and `to` are Lean keywords and are
rendered `from'` and `to'`. `timestamp` (a `Date`) is an epoch
millisecond count; its two string renderings (`Date#toString`,
`Date#toLocaleString`) are abstracted by `dateToString` /
`dateToLocaleString` below, since no claim inspects them. -/

structure EmailData where
  id : String
  from' : String
  to' : String
  subject : String
  body : String
  snippet : String
  labelIds : List String
  threadId : String
  timestamp : Nat
deriving DecidableEq

structure TaskData where
  title : String
  description : Option String
  priority : Nat
  dueDate : Option String
  projectId : Option String
  labels : Option (List String)
deriving DecidableEq

/-- Result record of `createTask` in `todoist.ts`. -/
structure TaskResult where
  success : Bool
  taskId : Option String
  error : Option String
deriving DecidableEq

/-- `ProcessingResult` of `core/types.ts`; its `timestamp` field (an ISO
wall-clock string) is not modelled. -/
structure ProcessingResult where
  success : Bool
  emailId : String
  taskId : Option String
  error : Option String
deriving DecidableEq

/-- One entry of the Gmail label cache (`labelCache` in `gmail.ts`):
label id and label name (the `type` field is never read). -/
structure LabelInfo where
  id : String
  name : String
deriving DecidableEq

/-- The `processingStats` counters of `email-processor.ts`. The
`processingTime` accumulator (wall-clock milliseconds) is not modelled. -/
structure ProcessingStats where
  totalProcessed : Nat
  ruleMatched : Nat
  aiProcessed : Nat
  tasksCreated : Nat
  skipped : Nat
  failed : Nat
deriving DecidableEq

/-! ## Rule engine data (`rule-engine.ts`) -/

structure RuleCriteria where
  from' : Option (List String)
  fromDomain : Option (List String)
  to' : Option (List String)
  subject : Option (List String)
  bodyKeywords : Option (List String)
  hasAttachment : Option Bool
  excludeKeywords : Option (List String)
deriving DecidableEq

structure RuleActions where
  label : String
  priority : Option Nat
  skipAI : Option Bool
deriving DecidableEq

/-- `stats` of a rule; `lastMatched`/`created` are epoch milliseconds. -/
structure RuleStats where
  matched : Nat
  lastMatched : Option Nat
  created : Nat
  accuracy : Option ℚ
deriving DecidableEq

structure FilterRule where
  id : String
  name : String
  description : String
  priority : Int
  active : Bool
  criteria : RuleCriteria
  actions : RuleActions
  stats : RuleStats
deriving DecidableEq

structure RuleMatchResult where
  matched : Bool
  rule : Option FilterRule
  confidence : ℚ
  matchedCriteria : List String
deriving DecidableEq

/-- `extractDomain` of `rule-engine.ts`: the regex `/@([^>]+)/` finds the
first `@` followed by at least one non-`>` character and captures the
(greedy) run of non-`>` characters after it; no match yields `''`. -/
def extractDomainChars : List Char → Option (List Char)
  | [] => none
  | c :: rest =>
    if c = '@' then
      let taken := rest.takeWhile (fun d => d ≠ '>')
      if taken.isEmpty then extractDomainChars rest else some taken
    else extractDomainChars rest

def extractDomain (s : String) : String :=
  match extractDomainChars s.data with
  | some cs => jsToLower ⟨cs⟩
  | none => ""

/-- The JavaScript presence test `field && field.length > 0` on an optional
keyword list. -/
def criterionDeclared : Option (List String) → Bool
  | some l => decide (l.length > 0)
  | none => false

/-- The four positive criterion checks of `evaluateRule`, folded in source
order into `(matchedCriteria, totalCriteria, matchedCount)`. -/
def criteriaTally (email : EmailData) (rule : FilterRule) :
    List String × Nat × Nat :=
  let t0 : List String × Nat × Nat := ([], 0, 0)
  let t1 :=
    if criterionDeclared rule.criteria.from' then
      if (rule.criteria.from'.getD []).any
          (fun sender => jsIncludes (jsToLower email.from') (jsToLower sender)) then
        (t0.1 ++ ["from"], t0.2.1 + 1, t0.2.2 + 1)
      else (t0.1, t0.2.1 + 1, t0.2.2)
    else t0
  let t2 :=
    if criterionDeclared rule.criteria.fromDomain then
      let emailDomain := extractDomain email.from'
      if (rule.criteria.fromDomain.getD []).any
          (fun domain => jsIncludes emailDomain (jsToLower domain)) then
        (t1.1 ++ ["fromDomain"], t1.2.1 + 1, t1.2.2 + 1)
      else (t1.1, t1.2.1 + 1, t1.2.2)
    else t1
  let t3 :=
    if criterionDeclared rule.criteria.subject then
      if (rule.criteria.subject.getD []).any
          (fun keyword => jsIncludes (jsToLower email.subject) (jsToLower keyword)) then
        (t2.1 ++ ["subject"], t2.2.1 + 1, t2.2.2 + 1)
      else (t2.1, t2.2.1 + 1, t2.2.2)
    else t2
  let t4 :=
    if criterionDeclared rule.criteria.bodyKeywords then
      if (rule.criteria.bodyKeywords.getD []).any
          (fun keyword => jsIncludes (jsToLower email.body) (jsToLower keyword) ||
            jsIncludes (jsToLower email.snippet) (jsToLower keyword)) then
        (t3.1 ++ ["bodyKeywords"], t3.2.1 + 1, t3.2.2 + 1)
      else (t3.1, t3.2.1 + 1, t3.2.2)
    else t3
  t4

/-- The exclude-keyword test of `evaluateRule`: declared, non-empty, and
some keyword occurs (case-insensitively) in body, snippet or subject. -/
def excludeHit (email : EmailData) (rule : FilterRule) : Bool :=
  criterionDeclared rule.criteria.excludeKeywords &&
  (rule.criteria.excludeKeywords.getD []).any (fun keyword =>
    jsIncludes (jsToLower email.body) (jsToLower keyword) ||
    jsIncludes (jsToLower email.snippet) (jsToLower keyword) ||
    jsIncludes (jsToLower email.subject) (jsToLower keyword))

/-- `evaluateRule` of `rule-engine.ts`: tally the declared criteria, veto on
an exclude-keyword hit (before confidence is computed), otherwise
`confidence = matchedCount / totalCriteria` (0 when nothing declared) and
`matched = confidence >= 0.5 && matchedCount > 0`. -/
def evaluateRule (email : EmailData) (rule : FilterRule) : RuleMatchResult :=
  let tally := criteriaTally email rule
  if excludeHit email rule then
    { matched := false, rule := none, confidence := 0, matchedCriteria := [] }
  else
    let confidence : ℚ := if tally.2.1 > 0 then mkRat tally.2.2 tally.2.1 else 0
    let matched : Bool := decide (mkRat 1 2 ≤ confidence) && decide (0 < tally.2.2)
    { matched := matched,
      rule := if matched then some rule else none,
      confidence := confidence,
      matchedCriteria := tally.1 }

/-- Stable insertion (used by `sortRulesDesc`): a rule goes before the first
element of strictly smaller priority, so earlier rules stay before later
rules of equal priority. -/
def insertRuleDesc (r : FilterRule) : List FilterRule → List FilterRule
  | [] => [r]
  | x :: xs => if r.priority < x.priority then x :: insertRuleDesc r xs else r :: x :: xs

/-- The stable sort `rules.sort((a, b) => b.priority - a.priority)` of
`processEmailWithRules`: descending by priority, ties keep encounter
order (Array.prototype.sort is stable). -/
def sortRulesDesc : List FilterRule → List FilterRule
  | [] => []
  | x :: xs => insertRuleDesc x (sortRulesDesc xs)

/-- The `for`-loop of `processEmailWithRules`: first rule (in the given
order) whose evaluation matches, together with its match result. -/
def findFirstMatchingRule (email : EmailData) :
    List FilterRule → Option (FilterRule × RuleMatchResult)
  | [] => none
  | r :: rs =>
    let res := evaluateRule email r
    if res.matched then some (r, res) else findFirstMatchingRule email rs

/-! ## AI classifier data (`ai-service.ts`) -/

structure AITaskData where
  title : String
  description : String
  dueString : Option JVal
  priority : Nat
  category : String
deriving DecidableEq

structure TemporalIndicators where
  hasDeadline : Bool
  urgencyLevel : String
  timeframe : Option JVal
deriving DecidableEq

structure AIClassificationResult where
  isActionable : Bool
  suggestedLabel : String
  confidence : ℚ
  taskData : Option AITaskData
  keywords : List String
  reasoning : String
  temporalIndicators : Option TemporalIndicators
deriving DecidableEq

/-- The raw parsed JSON object returned by the language model.
`taskData`/`temporalIndicators` are `none` when the field is absent (or
falsy); `keywords` is `some` exactly when the field is an array (the
`Array.isArray` test), its elements being the strings it carries. -/
structure RawTemporal where
  hasDeadline : JVal
  urgencyLevel : JVal
  timeframe : JVal

structure RawTaskData where
  title : JVal
  description : JVal
  dueString : JVal
  priority : JVal
  category : JVal

structure RawAIResult where
  isActionable : JVal
  suggestedLabel : JVal
  confidence : JVal
  taskData : Option RawTaskData
  keywords : Option (List String)
  reasoning : JVal
  temporalIndicators : Option RawTemporal

def validLabels : List String :=
  ["TodoAgent_Important", "TodoAgent_Urgent", "TodoAgent_Meeting",
   "TodoAgent_Task", "TodoAgent_Skip"]

/-- `validateLabel` of `ai-service.ts`: unknown labels become
`TodoAgent_Skip`. -/
def validateLabel (label : JVal) : String :=
  match label with
  | .jstr s => if validLabels.contains s then s else "TodoAgent_Skip"
  | _ => "TodoAgent_Skip"

/-- `generateTaskTitle` of `ai-service.ts`. -/
def generateTaskTitle (email : EmailData) : String :=
  let subject := jsTrim (stripReFwdPrefix email.subject)
  let fromName :=
    let t := jsTrim ((jsSplit email.from' '<').headD "")
    if t = "" then email.from' else t
  if subject.length > 0 then subject ++ " (from " ++ fromName ++ ")"
  else "Email from " ++ fromName

/-- `validateAndNormalizeResult` of `ai-service.ts`: coerce booleans, clamp
confidence (`Math.max(0, Math.min(1, Number(result.confidence) || 0.5))`),
restrict the label / priority / category / urgency enums to their valid
values, and attach task data only when actionable and present. -/
def validateAndNormalizeResult (result : RawAIResult) (email : EmailData) :
    AIClassificationResult :=
  let normalized : AIClassificationResult :=
    { isActionable := jsTruthy result.isActionable,
      suggestedLabel := validateLabel result.suggestedLabel,
      confidence := mathMax 0 (mathMin 1 (jsNumORelse result.confidence (mkRat 1 2))),
      taskData := none,
      keywords := result.keywords.getD [],
      reasoning := jsToString (jsOr result.reasoning (.jstr "No reasoning provided")),
      temporalIndicators := some
        { hasDeadline :=
            match result.temporalIndicators with
            | some t => jsTruthy t.hasDeadline
            | none => false,
          urgencyLevel :=
            match result.temporalIndicators with
            | some t =>
              match t.urgencyLevel with
              | .jstr s => if s = "low" ∨ s = "medium" ∨ s = "high" then s else "low"
              | _ => "low"
            | none => "low",
          timeframe :=
            match result.temporalIndicators with
            | some t => if jsTruthy t.timeframe then some t.timeframe else none
            | none => none } }
  if normalized.isActionable then
    match result.taskData with
    | some td =>
      let td' : AITaskData :=
        { title := jsToString (jsOr td.title (.jstr (generateTaskTitle email))),
          description := jsToString (jsOr td.description (.jstr email.snippet)),
          dueString := if jsTruthy td.dueString then some td.dueString else none,
          priority :=
            match td.priority with
            | .jnum q =>
              if q = 1 then 1 else if q = 2 then 2 else if q = 3 then 3
              else if q = 4 then 4 else 2
            | _ => 2,
          category :=
            match td.category with
            | .jstr s =>
              if s = "task" ∨ s = "meeting" ∨ s = "review" ∨ s = "urgent" ∨
                 s = "information" then s else "task"
            | _ => "task" }
      { normalized with taskData := some td' }
    | none => normalized
  else normalized

/-- The fixed fallback verdict of the `catch` branch of `classifyEmail`. -/
def aiFallbackResult : AIClassificationResult :=
  { isActionable := false,
    suggestedLabel := "TodoAgent_Skip",
    confidence := mkRat 1 10,
    taskData := none,
    keywords := [],
    reasoning := "AI classification failed, marked as non-actionable for safety",
    temporalIndicators := none }

/-! ## Due-date extraction (`todoist.ts`)

`extractDueDateFromText` scans with six regexes of the shape
`word (\s+ word)* \s+ (alt|alt|...)`. A pattern is a token list; tokens
are separated by one-or-more whitespace characters (`\s+`; greedy is
exact here since every token starts with a non-whitespace character).
The matcher returns the matched text `match[0]`, on which the pattern's
value function operates exactly as in the source. -/

inductive Tok where
  | lit (s : String)
  | alt (ws : List String)

/-- Match one token at the head of `cs`, returning consumed characters and
the rest; an alternation takes its first matching branch. -/
def matchTok : Tok → List Char → Option (List Char × List Char)
  | .lit s, cs => if isPrefixL s.data cs then some (s.data, cs.drop s.data.length) else none
  | .alt ws, cs =>
    (ws.find? (fun w => isPrefixL w.data cs)).map (fun w => (w.data, cs.drop w.data.length))

/-- Match a whole token sequence at the head of `cs` (tokens separated by
`\s+`), returning the matched text and the rest. -/
def matchToks : List Tok → List Char → Option (List Char × List Char)
  | [], cs => some ([], cs)
  | t :: ts, cs =>
    match matchTok t cs with
    | none => none
    | some (m1, r1) =>
      match ts with
      | [] => some (m1, r1)
      | _ :: _ =>
        let ws := r1.takeWhile isWs
        if ws.isEmpty then none
        else
          match matchToks ts (r1.drop ws.length) with
          | none => none
          | some (m2, r2) => some (m1 ++ ws ++ m2, r2)

/-- Regex search: first position where the token sequence matches. -/
def searchToks (toks : List Tok) : List Char → Option (List Char)
  | [] => (matchToks toks []).map Prod.fst
  | c :: rest =>
    match matchToks toks (c :: rest) with
    | some (m, _) => some m
    | none => searchToks toks rest

structure DuePattern where
  toks : List Tok
  value : String → Option String

/-- The six patterns of `extractDueDateFromText`, with the source's value
functions (`match.split(' ')[1]` can be `undefined` when `\s+` matched a
non-space whitespace character — modelled by `Option`). -/
def duePatterns : List DuePattern :=
  [⟨[.lit "by", .alt ["today", "tomorrow"]],
    fun m => (jsSplit m ' ').get? 1⟩,
   ⟨[.lit "due", .alt ["today", "tomorrow"]],
    fun m => (jsSplit m ' ').get? 1⟩,
   ⟨[.lit "by", .lit "end", .lit "of", .alt ["day", "week"]],
    fun m => some ("end of " ++ ((jsSplit m ' ').getLast?.getD "undefined"))⟩,
   ⟨[.lit "by", .alt ["monday", "tuesday", "wednesday", "thursday", "friday",
      "saturday", "sunday"]],
    fun m => (jsSplit m ' ').get? 1⟩,
   ⟨[.lit "next", .alt ["week", "month"]],
    fun m => some m⟩,
   ⟨[.lit "this", .alt ["week", "month"]],
    fun m => some m⟩]

def tryDuePatterns : List DuePattern → List Char → Option String
  | [], _ => none
  | p :: ps, cs =>
    match searchToks p.toks cs with
    | some m => p.value (String.mk m)
    | none => tryDuePatterns ps cs

/-- `extractDueDateFromText` of `todoist.ts`: the first pattern that matches
anywhere in the text determines the result. -/
def extractDueDateFromText (text : String) : Option String :=
  tryDuePatterns duePatterns text.data

/-! ## World, environment, and the Gmail/Todoist service operations -/

/-- The explicit state: the Gmail mailbox (each email's label set is the
system of record), the label-name/id cache, the rule list, the processing
counters, and the append-only observation logs. -/
structure World where
  emails : List EmailData
  cache : List LabelInfo
  rules : List FilterRule
  stats : ProcessingStats
  labelWrites : List (String × String)
  taskAttempts : List TaskData
  createdTaskIds : List String
deriving DecidableEq

/-- Ambient configuration and oracles for the external services:
`now` the clock reading, `hasOpenAIKey` the `process.env.OPENAI_API_KEY`
test, `aiInitialized` the AI service initialization state,
`llmResponse` the outcome of the OpenAI chat call (`Except.error` models a
network failure, a non-OK response or a JSON parse failure),
`taskOutcome` the outcome of the Todoist create-task call (`Except.ok id`
is a creation returning a task id). -/
structure Env where
  now : Nat
  hasOpenAIKey : Bool
  aiInitialized : Bool
  llmResponse : EmailData → Except String RawAIResult
  taskOutcome : TaskData → Except String String

/-- `getEmailById` of `gmail.ts` (fetch by message id; `none` when Gmail
reports no such message or the fetch fails). -/
def getEmailById (w : World) (emailId : String) : Option EmailData :=
  w.emails.find? (fun e => e.id == emailId)

/-- `hasLabel` of `gmail.ts`: some label id of the email resolves through
the cache to the given label name. -/
def hasLabel (cache : List LabelInfo) (email : EmailData) (labelName : String) : Bool :=
  email.labelIds.any (fun labelId =>
    match cache.find? (fun l => l.id == labelId) with
    | some l => l.name == labelName
    | none => false)

/-- `getLabelId` of `gmail.ts` (the cache refresh is the identity in this
model: the cache is fixed for a run). -/
def getLabelId (cache : List LabelInfo) (labelName : String) : Option String :=
  (cache.find? (fun l => l.name == labelName)).map (fun l => l.id)

/-- `addLabelToEmail` of `gmail.ts`: the attempt is logged; if the name
resolves, the label id is added to the email in the mailbox (the remote
add is modelled as succeeding; its Boolean result is ignored by every
modelled caller), otherwise the call returns `false` and writes nothing. -/
def addLabelToEmail (w : World) (emailId labelName : String) : Bool × World :=
  let w := { w with labelWrites := w.labelWrites ++ [(emailId, labelName)] }
  match getLabelId w.cache labelName with
  | none => (false, w)
  | some labelId =>
    (true, { w with emails := w.emails.map (fun e =>
        if e.id == emailId then { e with labelIds := e.labelIds ++ [labelId] } else e) })

inductive MarkStatus where
  | success
  | failed
  | skipped
deriving DecidableEq

def markStatusLabel : MarkStatus → String
  | .success => "TodoAgent_Processed"
  | .failed => "TodoAgent_Failed"
  | .skipped => "TodoAgent_Skip"

/-- `markEmailProcessed` of `gmail.ts`: add the terminal/failure label for
the status (the commented-out removal of `TodoAgent_Failed` on success is
skipped in the source as well). -/
def markEmailProcessed (w : World) (emailId : String) (status : MarkStatus) : Bool × World :=
  addLabelToEmail w emailId (markStatusLabel status)

/-- `createTask` of `todoist.ts`: the call is logged, the external outcome
decides success (its id) or failure (its message). -/
def createTask (env : Env) (w : World) (taskData : TaskData) : TaskResult × World :=
  let w := { w with taskAttempts := w.taskAttempts ++ [taskData] }
  match env.taskOutcome taskData with
  | .ok taskId =>
    ({ success := true, taskId := some taskId, error := none },
     { w with createdTaskIds := w.createdTaskIds ++ [taskId] })
  | .error e => ({ success := false, taskId := none, error := some e }, w)

/-- `Date#toLocaleString` rendering of an epoch timestamp, abstracted (it
only feeds the task description string, which no claim inspects). -/
def dateToLocaleString (n : Nat) : String := toString n

/-- `Date#toString` rendering of an epoch timestamp, abstracted likewise. -/
def dateToString (n : Nat) : String := toString n

def urgentKeywords : List String := ["urgent", "asap", "important", "critical", "deadline"]

def highKeywords : List String := ["please review", "action required", "needed by"]

/-- `createTaskFromEmail` of `todoist.ts`: title from the cleaned subject
and sender, keyword-derived priority (urgent keywords give 4, high
keywords 3, else 2), due-date hints extracted from subject+body. -/
def createTaskFromEmail (env : Env) (w : World) (email : EmailData) :
    TaskResult × World :=
  let senderName :=
    let t := jsTrim ((jsSplit email.from' '<').headD "")
    if t = "" then email.from' else t
  let cleanSubject := jsTrim (stripReFwdPrefix email.subject)
  let emailText := jsToLower (email.subject ++ " " ++ email.body)
  let priority : Nat :=
    if urgentKeywords.any (fun keyword => jsIncludes emailText keyword) then 4
    else if highKeywords.any (fun keyword => jsIncludes emailText keyword) then 3
    else 2
  let dueDateHints := extractDueDateFromText emailText
  let taskData : TaskData :=
    { title :=
        if cleanSubject.length > 0 then cleanSubject ++ " (from " ++ senderName ++ ")"
        else "Email from " ++ senderName,
      description := some (email.snippet ++ "\n\nFrom: " ++ email.from' ++
        "\nReceived: " ++ dateToLocaleString email.timestamp),
      priority := priority,
      dueDate := dueDateHints,
      projectId := none,
      labels := some ["email-todo"] }
  createTask env w taskData

/-! ## Email processor (`email-processor.ts`) -/

/-- Return record of `extractTaskDataFromLabeledEmail`. -/
structure LabeledTaskData where
  title : String
  description : String
  dueString : Option String
  priority : Nat
  category : String
deriving DecidableEq

/-- `extractTaskDataFromLabeledEmail` of `email-processor.ts`: priority and
category from the present action label, checked in the order
Important, Urgent, Meeting, Task. -/
def extractTaskDataFromLabeledEmail (cache : List LabelInfo) (email : EmailData) :
    LabeledTaskData :=
  let senderName :=
    let t := jsTrim ((jsSplit email.from' '<').headD "")
    if t = "" then email.from' else t
  let cleanSubject := jsTrim (stripReFwdPrefix email.subject)
  let pc : Nat × String :=
    if hasLabel cache email "TodoAgent_Important" then (4, "urgent")
    else if hasLabel cache email "TodoAgent_Urgent" then (4, "urgent")
    else if hasLabel cache email "TodoAgent_Meeting" then (3, "meeting")
    else if hasLabel cache email "TodoAgent_Task" then (2, "task")
    else (2, "task")
  { title :=
      if cleanSubject.length > 0 then cleanSubject ++ " (from " ++ senderName ++ ")"
      else "Email from " ++ senderName,
    description := email.snippet ++ "\n\nFrom: " ++ email.from' ++
      "\nReceived: " ++ dateToString email.timestamp,
    dueString := none,
    priority := pc.1,
    category := pc.2 }

/-- `hasProcessedLabel` of `email-processor.ts`: `TodoAgent_Processed` or
`TodoAgent_Skip` (deliberately not `TodoAgent_Failed`, so failed emails
can be retried). -/
def hasProcessedLabel (cache : List LabelInfo) (email : EmailData) : Bool :=
  hasLabel cache email "TodoAgent_Processed" || hasLabel cache email "TodoAgent_Skip"

def actionLabels : List String :=
  ["TodoAgent_Important", "TodoAgent_Urgent", "TodoAgent_Meeting", "TodoAgent_Task"]

/-- `hasActionLabel` of `email-processor.ts`. -/
def hasActionLabel (cache : List LabelInfo) (email : EmailData) : Bool :=
  actionLabels.any (fun label => hasLabel cache email label)

def skipKeywords : List String :=
  ["noreply", "no-reply", "donotreply", "do-not-reply",
   "newsletter", "unsubscribe", "marketing",
   "automated", "system", "notification",
   "github.com", "linkedin.com", "facebook.com"]

/-- `shouldSkipEmail` of `email-processor.ts` (basic classification
denylist over sender and subject). -/
def shouldSkipEmail (email : EmailData) : Bool :=
  let fromLower := jsToLower email.from'
  let subjectLower := jsToLower email.subject
  skipKeywords.any (fun keyword =>
    jsIncludes fromLower keyword || jsIncludes subjectLower keyword)

/-- The `rule.stats.matched++; rule.stats.lastMatched = new Date()` update
of `processEmailWithRules`. -/
def bumpRuleStats (env : Env) (r : FilterRule) : FilterRule :=
  { r with stats :=
      { r.stats with
          matched := r.stats.matched + 1,
          lastMatched := some env.now } }

/-- `processEmailWithRules` of `rule-engine.ts`: active rules, sorted
descending by priority (stable), first match wins; on a match the rule's
stats are updated (the matched rule is identified by its `id`, modelling
the in-place object mutation) and, if the action carries a (truthy,
i.e. non-empty) label, the label is applied to the email. The
`RuleMatchResult.rule` field carries the rule as evaluated (before the
stats bump); no modelled caller reads its `stats`. -/
def processEmailWithRules (env : Env) (w : World) (email : EmailData) :
    RuleMatchResult × World :=
  let sortedRules := sortRulesDesc (w.rules.filter (fun r => r.active))
  match findFirstMatchingRule email sortedRules with
  | none => ({ matched := false, rule := none, confidence := 0, matchedCriteria := [] }, w)
  | some (r, res) =>
    let w := { w with rules := w.rules.map (fun x =>
        if x.id == r.id then bumpRuleStats env x else x) }
    let w := if r.actions.label ≠ "" then (addLabelToEmail w email.id r.actions.label).2 else w
    (res, w)

/-- `classifyEmail` of `ai-service.ts`: throws (`Except.error`) when the
service is uninitialized; otherwise a failing language-model call is
caught and converted to the fixed fallback verdict, and a successful one
is validated and normalized. (The append to the in-memory
`classificationHistory` — statistics only, capacity 1000 — is not
modelled; no claim observes it.) -/
def classifyEmail (env : Env) (email : EmailData) :
    Except String AIClassificationResult :=
  if !env.aiInitialized then
    .error "AI service not initialized. Call initializeAI() first."
  else
    match env.llmResponse email with
    | .error _ => .ok aiFallbackResult
    | .ok raw => .ok (validateAndNormalizeResult raw email)

/-- `processWithBasicClassification` of `email-processor.ts`. -/
def processWithBasicClassification (env : Env) (w : World) (email : EmailData) :
    ProcessingResult × World :=
  if shouldSkipEmail email then
    let w := (addLabelToEmail w email.id "TodoAgent_Skip").2
    let w := (markEmailProcessed w email.id .skipped).2
    let w := { w with stats := { w.stats with skipped := w.stats.skipped + 1 } }
    ({ success := true, emailId := email.id, taskId := none,
       error := some "Basic classification - skipped" }, w)
  else
    let tr := createTaskFromEmail env w email
    let w := tr.2
    if tr.1.success then
      let w := (addLabelToEmail w email.id "TodoAgent_Task").2
      let w := (markEmailProcessed w email.id .success).2
      let w := { w with stats := { w.stats with tasksCreated := w.stats.tasksCreated + 1 } }
      ({ success := true, emailId := email.id, taskId := tr.1.taskId, error := none }, w)
    else
      let w := (markEmailProcessed w email.id .failed).2
      ({ success := false, emailId := email.id, taskId := none, error := tr.1.error }, w)

/-- `processWithAI` of `email-processor.ts`: no API key falls back to basic
classification; a `classifyEmail` throw (uninitialized service, e.g.
after a failed initialization) is caught and falls back likewise;
otherwise the verdict decides between task creation under the suggested
label and the skip path. -/
def processWithAI (env : Env) (w : World) (email : EmailData) :
    ProcessingResult × World :=
  let w := { w with stats := { w.stats with aiProcessed := w.stats.aiProcessed + 1 } }
  if !env.hasOpenAIKey then processWithBasicClassification env w email
  else
    match classifyEmail env email with
    | .error _ => processWithBasicClassification env w email
    | .ok aiResult =>
      if aiResult.isActionable && aiResult.taskData.isSome then
        let w := (addLabelToEmail w email.id aiResult.suggestedLabel).2
        let tr := createTaskFromEmail env w email
        let w := tr.2
        if tr.1.success then
          let w := (markEmailProcessed w email.id .success).2
          let w := { w with stats := { w.stats with tasksCreated := w.stats.tasksCreated + 1 } }
          ({ success := true, emailId := email.id, taskId := tr.1.taskId, error := none }, w)
        else
          let w := (markEmailProcessed w email.id .failed).2
          ({ success := false, emailId := email.id, taskId := none, error := tr.1.error }, w)
      else
        let w := (addLabelToEmail w email.id "TodoAgent_Skip").2
        let w := (markEmailProcessed w email.id .skipped).2
        let w := { w with stats := { w.stats with skipped := w.stats.skipped + 1 } }
        ({ success := true, emailId := email.id, taskId := none,
           error := some "AI determined not actionable" }, w)

/-- `processLabeledEmail` of `email-processor.ts`: label-derived task data
is computed (and, as in the source, not used further — the task is
created by `createTaskFromEmail` from the raw email); on task-creation
success the email is marked `success` (`TodoAgent_Processed`), on failure
`failed`. -/
def processLabeledEmail (env : Env) (w : World) (email : EmailData) :
    ProcessingResult × World :=
  let _taskData := extractTaskDataFromLabeledEmail w.cache email
  let tr := createTaskFromEmail env w email
  let w := tr.2
  if tr.1.success then
    let w := (markEmailProcessed w email.id .success).2
    let w := { w with stats := { w.stats with tasksCreated := w.stats.tasksCreated + 1 } }
    ({ success := true, emailId := email.id, taskId := tr.1.taskId, error := none }, w)
  else
    let w := (markEmailProcessed w email.id .failed).2
    ({ success := false, emailId := email.id, taskId := none, error := tr.1.error }, w)

/-- Steps 3-5 of `processEmail`: action-label inspection, rule evaluation
(with re-fetch and skip-AI handling), and the AI / basic classification
fallback. -/
def processEmailAfterChecks (env : Env) (w : World) (emailId : String)
    (email : EmailData) : ProcessingResult × World :=
  if hasActionLabel w.cache email then
    let w := { w with stats := { w.stats with ruleMatched := w.stats.ruleMatched + 1 } }
    processLabeledEmail env w email
  else
    let rr := processEmailWithRules env w email
    let ruleResult := rr.1
    let w := rr.2
    if ruleResult.matched && ruleResult.rule.isSome then
      let w := { w with stats := { w.stats with ruleMatched := w.stats.ruleMatched + 1 } }
      let step5 : ProcessingResult × World :=
        match ruleResult.rule with
        | some r =>
          if r.actions.skipAI = some true then
            let w := (markEmailProcessed w email.id .skipped).2
            let w := { w with stats := { w.stats with skipped := w.stats.skipped + 1 } }
            ({ success := true, emailId := emailId, taskId := none,
               error := some "Rule marked to skip" }, w)
          else processWithAI env w email
        | none => processWithAI env w email
      match getEmailById w email.id with
      | some updatedEmail =>
        if hasActionLabel w.cache updatedEmail then processLabeledEmail env w updatedEmail
        else step5
      | none => step5
    else processWithAI env w email

/-- `processEmail` of `email-processor.ts`: bump `totalProcessed`, fetch
(not found is a failure with no further effect), short-circuit on a
terminal label (`hasProcessedLabel`, then the redundant explicit
`TodoAgent_Skip` check), note a `TodoAgent_Failed` retry (a log line
only), then proceed to `processEmailAfterChecks`. -/
def processEmail (env : Env) (w : World) (emailId : String) :
    ProcessingResult × World :=
  let w := { w with stats := { w.stats with totalProcessed := w.stats.totalProcessed + 1 } }
  match getEmailById w emailId with
  | none =>
    ({ success := false, emailId := emailId, taskId := none,
       error := some "Email not found" }, w)
  | some email =>
    if hasProcessedLabel w.cache email then
      let w := { w with stats := { w.stats with skipped := w.stats.skipped + 1 } }
      ({ success := true, emailId := emailId, taskId := none,
         error := some "Already processed" }, w)
    else if hasLabel w.cache email "TodoAgent_Skip" then
      let w := { w with stats := { w.stats with skipped := w.stats.skipped + 1 } }
      ({ success := true, emailId := emailId, taskId := none,
         error := some "Marked to skip" }, w)
    else processEmailAfterChecks env w emailId email

/-! ## Batch scheduler (`batch-processor.ts`) -/

structure BatchProcessingConfig where
  intervalMinutes : Nat
  maxEmailsPerBatch : Nat
  enabled : Bool
  runOnStartup : Bool
deriving DecidableEq

structure BatchProcessingStats where
  totalRuns : Nat
  totalEmailsProcessed : Nat
  totalTasksCreated : Nat
  lastRunTime : Option Nat
  nextRunTime : Option Nat
  averageProcessingTime : ℚ
  isRunning : Bool
deriving DecidableEq

/-- Module state of `batch-processor.ts`: configuration, statistics, and
whether the recurring interval timer is installed (`batchInterval !==
null`). -/
structure BatchState where
  config : BatchProcessingConfig
  stats : BatchProcessingStats
  intervalActive : Bool
deriving DecidableEq

def batchQueryStartup : String :=
  "is:unread newer_than:1d -label:\"TodoAgent_Processed\" -label:\"TodoAgent_Skip\""

def batchQueryRegular : String :=
  "is:unread -label:\"TodoAgent_Processed\" -label:\"TodoAgent_Skip\""

/-- `runBatchProcessing` of `batch-processor.ts`. `cycle query max` is the
`processEmails` call observed through the processing statistics: it
returns the number of results and the increase of the `tasksCreated`
counter across the call (`Except.error` models a thrown batch-cycle
exception, which the `catch` swallows); `now` is the clock reading,
`elapsed` the wall-clock duration of the cycle. If a run is already in
progress (`isRunning`), the invocation returns the current statistics
unchanged, for any `cycle` whatsoever. -/
def runBatchProcessing (cycle : String → Nat → Except String (Nat × Nat))
    (now elapsed : Nat) (st : BatchState) : BatchProcessingStats × BatchState :=
  if st.stats.isRunning then (st.stats, st)
  else
    let s1 := { st.stats with isRunning := true, totalRuns := st.stats.totalRuns + 1 }
    let isStartupRun := s1.totalRuns == 1 && st.config.runOnStartup
    let query := if isStartupRun then batchQueryStartup else batchQueryRegular
    match cycle query st.config.maxEmailsPerBatch with
    | .error _ =>
      let s2 := { s1 with isRunning := false }
      (s2, { st with stats := s2 })
    | .ok nt =>
      let s2 := { s1 with
        totalEmailsProcessed := s1.totalEmailsProcessed + nt.1,
        totalTasksCreated := s1.totalTasksCreated + nt.2,
        lastRunTime := some now,
        averageProcessingTime :=
          (s1.averageProcessingTime * ((s1.totalRuns : ℚ) - 1) + (elapsed : ℚ)) /
            (s1.totalRuns : ℚ) }
      let s3 :=
        if st.intervalActive then
          { s2 with nextRunTime := some (now + st.config.intervalMinutes * 60 * 1000) }
        else s2
      let s4 := { s3 with isRunning := false }
      (s4, { st with stats := s4 })

end GmailTodo

namespace GmailTodo

/-! ## Helper lemmas -/

theorem mkRat_one_two : mkRat 1 2 = (1 : ℚ)/2 := by
  simpa using mkRat_eq_natDiv 1 2

theorem mkRat_one_three : mkRat 1 3 = (1 : ℚ)/3 := by
  simpa using mkRat_eq_natDiv 1 3

@[simp] theorem addLabelToEmail_labelWrites (w : World) (e l : String) :
    ((addLabelToEmail w e l).2).labelWrites = w.labelWrites ++ [(e, l)] := by
  unfold addLabelToEmail
  cases h : getLabelId w.cache l <;> simp [h]

@[simp] theorem addLabelToEmail_cache (w : World) (e l : String) :
    ((addLabelToEmail w e l).2).cache = w.cache := by
  unfold addLabelToEmail
  cases h : getLabelId w.cache l <;> simp [h]

@[simp] theorem addLabelToEmail_rules (w : World) (e l : String) :
    ((addLabelToEmail w e l).2).rules = w.rules := by
  unfold addLabelToEmail
  cases h : getLabelId w.cache l <;> simp [h]

@[simp] theorem addLabelToEmail_stats (w : World) (e l : String) :
    ((addLabelToEmail w e l).2).stats = w.stats := by
  unfold addLabelToEmail
  cases h : getLabelId w.cache l <;> simp [h]

@[simp] theorem addLabelToEmail_taskAttempts (w : World) (e l : String) :
    ((addLabelToEmail w e l).2).taskAttempts = w.taskAttempts := by
  unfold addLabelToEmail
  cases h : getLabelId w.cache l <;> simp [h]

@[simp] theorem addLabelToEmail_createdTaskIds (w : World) (e l : String) :
    ((addLabelToEmail w e l).2).createdTaskIds = w.createdTaskIds := by
  unfold addLabelToEmail
  cases h : getLabelId w.cache l <;> simp [h]

@[simp] theorem markEmailProcessed_labelWrites (w : World) (e : String) (s : MarkStatus) :
    ((markEmailProcessed w e s).2).labelWrites = w.labelWrites ++ [(e, markStatusLabel s)] := by
  unfold markEmailProcessed
  simp

@[simp] theorem markEmailProcessed_createdTaskIds (w : World) (e : String) (s : MarkStatus) :
    ((markEmailProcessed w e s).2).createdTaskIds = w.createdTaskIds := by
  unfold markEmailProcessed
  simp

@[simp] theorem markEmailProcessed_taskAttempts (w : World) (e : String) (s : MarkStatus) :
    ((markEmailProcessed w e s).2).taskAttempts = w.taskAttempts := by
  unfold markEmailProcessed
  simp

theorem getEmailById_some_id {w : World} {i : String} {e : EmailData}
    (h : getEmailById w i = some e) : e.id = i := by
  have := List.find?_some h
  simpa using this

end GmailTodo

namespace GmailTodo

/-! ## Concrete fixtures used by witnesses and counterexamples -/

/-- A label cache mapping ids `L1`..`L7` to the seven TodoAgent labels. -/
def cacheStd : List LabelInfo :=
  [⟨"L1", "TodoAgent_Processed"⟩, ⟨"L2", "TodoAgent_Skip"⟩, ⟨"L3", "TodoAgent_Failed"⟩,
   ⟨"L4", "TodoAgent_Important"⟩, ⟨"L5", "TodoAgent_Urgent"⟩, ⟨"L6", "TodoAgent_Meeting"⟩,
   ⟨"L7", "TodoAgent_Task"⟩]

/-- An environment whose external services are all unavailable. -/
def envNull : Env :=
  { now := 0, hasOpenAIKey := false, aiInitialized := false,
    llmResponse := fun _ => .error "offline",
    taskOutcome := fun _ => .error "No active Todoist account found" }

def emptyStats : ProcessingStats := ⟨0, 0, 0, 0, 0, 0⟩

/-- A plain unlabeled email. -/
def emailPlain : EmailData :=
  { id := "e1", from' := "Alice <alice@corp.com>", to' := "me@corp.com",
    subject := "Project alpha sync", body := "hello world", snippet := "hello world",
    labelIds := [], threadId := "t1", timestamp := 0 }

def emptyCriteria : RuleCriteria :=
  { from' := none, fromDomain := none, to' := none, subject := none,
    bodyKeywords := none, hasAttachment := none, excludeKeywords := none }

def freshRuleStats : RuleStats :=
  { matched := 0, lastMatched := none, created := 0, accuracy := none }

/-- Two declared criteria (`subject`, `bodyKeywords`); on `emailPlain` only
`subject` matches. -/
def ruleTwoCriteria : FilterRule :=
  { id := "r-two", name := "two", description := "", priority := 5, active := true,
    criteria :=
      { emptyCriteria with
          subject := some ["alpha"],
          bodyKeywords := some ["zzz"] },
    actions := { label := "TodoAgent_Task", priority := none, skipAI := none },
    stats := freshRuleStats }

/-- Three declared criteria; on `emailPlain` only `subject` matches. -/
def ruleThreeCriteria : FilterRule :=
  { ruleTwoCriteria with
      id := "r-three",
      criteria :=
        { emptyCriteria with
            from' := some ["bob@other.org"],
            subject := some ["alpha"],
            bodyKeywords := some ["zzz"] } }

/-! ## Claim C5 — exclusion veto -/

/-- C5: for every rule with a non-empty `excludeKeywords` list and every
email where some exclude keyword occurs case-insensitively in the body,
snippet or subject, `evaluateRule` returns not-matched with confidence 0
and empty matched-criteria, regardless of the other criteria. -/
theorem claim_C5_exclusion_veto (email : EmailData) (rule : FilterRule)
    (kws : List String)
    (hdecl : rule.criteria.excludeKeywords = some kws)
    (hlen : 0 < kws.length)
    (hhit : ∃ kw ∈ kws,
      jsIncludes (jsToLower email.body) (jsToLower kw) = true ∨
      jsIncludes (jsToLower email.snippet) (jsToLower kw) = true ∨
      jsIncludes (jsToLower email.subject) (jsToLower kw) = true) :
    evaluateRule email rule =
      { matched := false, rule := none, confidence := 0, matchedCriteria := [] } := by
  have hx : excludeHit email rule = true := by
    unfold excludeHit criterionDeclared
    rw [hdecl]
    simp only [Option.getD_some, Bool.and_eq_true]
    refine ⟨decide_eq_true hlen, ?_⟩
    rw [List.any_eq_true]
    obtain ⟨kw, hmem, hcase⟩ := hhit
    refine ⟨kw, hmem, ?_⟩
    rcases hcase with h | h | h <;> simp [h]
  simp only [evaluateRule, hx, if_true]

/-- A rule whose positive criteria all match `emailExcluded` but whose
exclude list hits its body. -/
def ruleVetoed : FilterRule :=
  { ruleTwoCriteria with
      id := "r-veto",
      criteria :=
        { emptyCriteria with
            subject := some ["alpha"],
            bodyKeywords := some ["hello"],
            excludeKeywords := some ["unsubscribe"] } }

def emailExcluded : EmailData :=
  { emailPlain with id := "e-veto", body := "hello world unsubscribe here" }

theorem claim_C5_witness :
    evaluateRule emailExcluded ruleVetoed =
      { matched := false, rule := none, confidence := 0, matchedCriteria := [] } :=
  claim_C5_exclusion_veto emailExcluded ruleVetoed ["unsubscribe"] (by decide) (by decide)
    ⟨"unsubscribe", by decide, Or.inl (by decide)⟩

end GmailTodo

namespace GmailTodo

/-! ## Claim C6 — confidence threshold with inclusive boundary -/

/-- C6: for every rule and email not vetoed by exclude keywords,
`evaluateRule` computes confidence = matched-criteria-count divided by
declared-criteria-count (0 when no criteria are declared) and reports
matched exactly when confidence is at least 0.5 and at least one
criterion matched; in particular two declared criteria with exactly one
match give confidence 1/2 and a match (inclusive boundary), while three
declared criteria with exactly one match (confidence 1/3) do not match. -/
theorem claim_C6_confidence_threshold :
    (∀ (email : EmailData) (rule : FilterRule), excludeHit email rule = false →
      ((evaluateRule email rule).confidence =
        (if 0 < (criteriaTally email rule).2.1 then
          (((criteriaTally email rule).2.2 : ℚ) / ((criteriaTally email rule).2.1 : ℚ))
         else 0)) ∧
      ((evaluateRule email rule).matched = true ↔
        ((1 : ℚ)/2 ≤ (evaluateRule email rule).confidence ∧
          0 < (criteriaTally email rule).2.2))) ∧
    (evaluateRule emailPlain ruleTwoCriteria).confidence = (1 : ℚ)/2 ∧
    (evaluateRule emailPlain ruleTwoCriteria).matched = true ∧
    (evaluateRule emailPlain ruleThreeCriteria).confidence = (1 : ℚ)/3 ∧
    (evaluateRule emailPlain ruleThreeCriteria).matched = false := by
  refine ⟨?_, ?_, by decide, ?_, by decide⟩
  · intro email rule hexcl
    simp only [evaluateRule, hexcl, Bool.false_eq_true, if_false, gt_iff_lt,
      Bool.and_eq_true, decide_eq_true_eq, mkRat_one_two]
    constructor
    · split <;> [rw [mkRat_eq_natDiv]; rfl]
    · trivial
  · rw [← mkRat_one_two]
    decide
  · rw [← mkRat_one_three]
    decide

theorem claim_C6_witness :
    excludeHit emailPlain ruleTwoCriteria = false ∧
    ((evaluateRule emailPlain ruleTwoCriteria).matched = true ↔
      ((1 : ℚ)/2 ≤ (evaluateRule emailPlain ruleTwoCriteria).confidence ∧
        0 < (criteriaTally emailPlain ruleTwoCriteria).2.2)) :=
  ⟨by decide, (claim_C6_confidence_threshold.1 emailPlain ruleTwoCriteria (by decide)).2⟩

/-! ## Claim C7 — AI fallback safety -/

/-- C7: for every email, if the language-model call inside an initialized
`classifyEmail` throws, `classifyEmail` does not propagate the exception
but returns (as a non-exceptional value) the fixed verdict with
`isActionable = false`, `suggestedLabel = "TodoAgent_Skip"`,
confidence at most 0.2, and the fixed reasoning string. -/
theorem claim_C7_ai_fallback_safety (env : Env) (email : EmailData) (msg : String)
    (hinit : env.aiInitialized = true)
    (hthrow : env.llmResponse email = .error msg) :
    classifyEmail env email = .ok aiFallbackResult ∧
    aiFallbackResult.isActionable = false ∧
    aiFallbackResult.suggestedLabel = "TodoAgent_Skip" ∧
    aiFallbackResult.confidence ≤ (1 : ℚ)/5 ∧
    aiFallbackResult.reasoning =
      "AI classification failed, marked as non-actionable for safety" := by
  refine ⟨?_, rfl, rfl, ?_, rfl⟩
  · simp only [classifyEmail, hinit, hthrow, Bool.not_true, Bool.false_eq_true, if_false]
  · show mkRat 1 10 ≤ (1 : ℚ)/5
    rw [Rat.mkRat_eq_div]
    norm_num

def envThrowing : Env := { envNull with aiInitialized := true }

theorem claim_C7_witness :
    classifyEmail envThrowing emailPlain = .ok aiFallbackResult ∧
    aiFallbackResult.confidence ≤ (1 : ℚ)/5 :=
  ⟨(claim_C7_ai_fallback_safety envThrowing emailPlain "offline" rfl rfl).1,
   (claim_C7_ai_fallback_safety envThrowing emailPlain "offline" rfl rfl).2.2.2.1⟩

/-! ## Claim C8 — batch mutual exclusion is a pure no-op -/

/-- C8: whenever `runBatchProcessing` is invoked while `isRunning` is
already set, it returns the current statistics unchanged — for any cycle
behaviour whatsoever (so no email processing is started) — and the whole
batch state, `totalRuns`, `totalEmailsProcessed` and `totalTasksCreated`
included, is untouched. -/
theorem claim_C8_batch_mutual_exclusion
    (cycle : String → Nat → Except String (Nat × Nat)) (now elapsed : Nat)
    (st : BatchState) (hrun : st.stats.isRunning = true) :
    runBatchProcessing cycle now elapsed st = (st.stats, st) ∧
    (runBatchProcessing cycle now elapsed st).1.totalRuns = st.stats.totalRuns ∧
    (runBatchProcessing cycle now elapsed st).1.totalEmailsProcessed =
      st.stats.totalEmailsProcessed ∧
    (runBatchProcessing cycle now elapsed st).1.totalTasksCreated =
      st.stats.totalTasksCreated ∧
    (runBatchProcessing cycle now elapsed st).2 = st := by
  have h : runBatchProcessing cycle now elapsed st = (st.stats, st) := by
    simp only [runBatchProcessing, hrun, if_true]
  exact ⟨h, by rw [h], by rw [h], by rw [h], by rw [h]⟩

def batchStateRunning : BatchState :=
  { config :=
      { intervalMinutes := 15,
        maxEmailsPerBatch := 50,
        enabled := true,
        runOnStartup := true },
    stats :=
      { totalRuns := 3,
        totalEmailsProcessed := 7,
        totalTasksCreated := 2,
        lastRunTime := none,
        nextRunTime := none,
        averageProcessingTime := 0,
        isRunning := true },
    intervalActive := true }

theorem claim_C8_witness :
    runBatchProcessing (fun _ _ => .ok (5, 5)) 0 0 batchStateRunning =
      (batchStateRunning.stats, batchStateRunning) ∧
    (runBatchProcessing (fun _ _ => .ok (5, 5)) 0 0 batchStateRunning).1.totalRuns = 3 :=
  ⟨(claim_C8_batch_mutual_exclusion _ 0 0 batchStateRunning (by decide)).1,
   by
     rw [(claim_C8_batch_mutual_exclusion (fun _ _ => .ok (5, 5)) 0 0
       batchStateRunning (by decide)).1]
     decide⟩

end GmailTodo

namespace GmailTodo

/-! ## Claim C9 — not-found atomicity (corrected)

`processEmail` increments `totalProcessed` *before* fetching the email,
so a not-found id does change the processing-statistics counters. -/

def worldEmpty : World :=
  { emails := [], cache := [], rules := [], stats := emptyStats,
    labelWrites := [], taskAttempts := [], createdTaskIds := [] }

/-- C9 counterexample: on a world with no emails, processing the id
`missing` returns the failure result `Email not found` and writes no
label and creates no task, but the pipeline state *does* change: the
`totalProcessed` counter has been incremented. -/
theorem claim_C9_counterexample :
    getEmailById worldEmpty "missing" = none ∧
    (processEmail envNull worldEmpty "missing").1.success = false ∧
    (processEmail envNull worldEmpty "missing").1.error = some "Email not found" ∧
    (processEmail envNull worldEmpty "missing").2.stats ≠ worldEmpty.stats ∧
    (processEmail envNull worldEmpty "missing").2.stats.totalProcessed =
      worldEmpty.stats.totalProcessed + 1 := by
  refine ⟨rfl, rfl, rfl, by decide, rfl⟩

/-- C9 amended: for every email id whose fetch returns no email,
`processEmail` returns the failure result `Email not found`, writes no
label, creates no task and leaves the mailbox unchanged, but it does
increment the `totalProcessed` statistics counter (which has already
happened before the fetch); nothing else changes. -/
theorem claim_C9_notfound_amended (env : Env) (w : World) (emailId : String)
    (h : getEmailById w emailId = none) :
    processEmail env w emailId =
      ({ success := false, emailId := emailId, taskId := none,
         error := some "Email not found" },
       { w with stats := { w.stats with
           totalProcessed := w.stats.totalProcessed + 1 } }) := by
  simp only [getEmailById] at h
  simp only [processEmail, getEmailById, h]

theorem claim_C9_witness :
    processEmail envNull worldEmpty "missing" =
      ({ success := false, emailId := "missing", taskId := none,
         error := some "Email not found" },
       { worldEmpty with stats := { worldEmpty.stats with
           totalProcessed := worldEmpty.stats.totalProcessed + 1 } }) :=
  claim_C9_notfound_amended envNull worldEmpty "missing" (by decide)

/-! ## Claim C10 — zero or missing AI confidence is raised to the default
(corrected)

The normalization `Math.max(0, Math.min(1, Number(c) || 0.5))` does send
an absent, non-numeric or exactly-zero confidence to 0.5, and passes
values strictly between 0 and 1 through unchanged — but a *negative*
reported confidence is truthy and is clamped to 0, so the normalized
confidence of a successfully parsed verdict *can* be 0. -/

/-- The confidence field of a normalized verdict, in closed form. -/
theorem validateAndNormalizeResult_confidence (result : RawAIResult) (email : EmailData) :
    (validateAndNormalizeResult result email).confidence =
      mathMax 0 (mathMin 1 (jsNumORelse result.confidence (mkRat 1 2))) := by
  rcases htd : result.taskData with _ | td <;>
    cases hact : jsTruthy result.isActionable <;>
      simp only [validateAndNormalizeResult, htd, hact, Bool.false_eq_true, if_false, if_true]

/-- C10 counterexample: a parsed response reporting confidence exactly -1
normalizes to confidence 0, refuting "the normalized confidence of a
successfully parsed verdict is never 0". -/
theorem claim_C10_counterexample :
    (validateAndNormalizeResult
      { isActionable := .jbool true, suggestedLabel := .jstr "TodoAgent_Task",
        confidence := .jnum (-1), taskData := none, keywords := some ["k"],
        reasoning := .jstr "r", temporalIndicators := none } emailPlain).confidence = 0 := by
  rw [validateAndNormalizeResult_confidence]
  decide

/-- C10 amended: an absent, non-numeric or exactly-zero `confidence` is
raised to the default 0.5; values strictly between 0 and 1 pass through
unchanged; values above 1 are clamped to 1; and *negative* values are
clamped to 0 — so a normalized confidence of 0 is possible exactly via a
negative reported value, not via a reported 0. -/
theorem claim_C10_confidence_normalization (result : RawAIResult) (email : EmailData) :
    ((jsToNumber result.confidence = none ∨ jsToNumber result.confidence = some 0) →
      (validateAndNormalizeResult result email).confidence = (1 : ℚ)/2) ∧
    (∀ q : ℚ, 0 < q → q ≤ 1 → result.confidence = .jnum q →
      (validateAndNormalizeResult result email).confidence = q) ∧
    (∀ q : ℚ, 1 < q → result.confidence = .jnum q →
      (validateAndNormalizeResult result email).confidence = 1) ∧
    (∀ q : ℚ, q < 0 → result.confidence = .jnum q →
      (validateAndNormalizeResult result email).confidence = 0) := by
  refine ⟨?_, ?_, ?_, ?_⟩
  · intro hc
    rw [validateAndNormalizeResult_confidence]
    have hd : jsNumORelse result.confidence (mkRat 1 2) = mkRat 1 2 := by
      unfold jsNumORelse
      rcases hc with h | h <;> rw [h]
      simp
    rw [hd, ← mkRat_one_two]
    decide
  · intro q h0 h1 hq
    rw [validateAndNormalizeResult_confidence]
    have hd : jsNumORelse result.confidence (mkRat 1 2) = q := by
      unfold jsNumORelse jsToNumber
      rw [hq]
      simp [ne_of_gt h0]
    rw [hd]
    unfold mathMax mathMin
    split_ifs <;> linarith
  · intro q h1 hq
    rw [validateAndNormalizeResult_confidence]
    have hd : jsNumORelse result.confidence (mkRat 1 2) = q := by
      unfold jsNumORelse jsToNumber
      rw [hq]
      simp [ne_of_gt (lt_trans zero_lt_one h1)]
    rw [hd]
    unfold mathMax mathMin
    split_ifs <;> linarith
  · intro q h0 hq
    rw [validateAndNormalizeResult_confidence]
    have hd : jsNumORelse result.confidence (mkRat 1 2) = q := by
      unfold jsNumORelse jsToNumber
      rw [hq]
      simp [ne_of_lt h0]
    rw [hd]
    unfold mathMax mathMin
    split_ifs <;> linarith

def rawZeroConfidence : RawAIResult :=
  { isActionable := .jbool false, suggestedLabel := .jstr "TodoAgent_Skip",
    confidence := .jnum 0, taskData := none, keywords := some [],
    reasoning := .jstr "none", temporalIndicators := none }

theorem claim_C10_witness :
    (validateAndNormalizeResult rawZeroConfidence emailPlain).confidence = (1 : ℚ)/2 :=
  (claim_C10_confidence_normalization rawZeroConfidence emailPlain).1 (Or.inr rfl)

end GmailTodo

namespace GmailTodo

/-! ## Claim C1 — idempotence of terminal labels -/

/-- On an email carrying a terminal label, `processEmail` reduces to the
`Already processed` short-circuit: a success result, and the only state
change is the statistics bump (`totalProcessed`, `skipped`). -/
theorem processEmail_terminal_eq (env : Env) (w : World) (emailId : String)
    (email : EmailData)
    (hfind : getEmailById w emailId = some email)
    (hterm : hasProcessedLabel w.cache email = true) :
    processEmail env w emailId =
      ({ success := true, emailId := emailId, taskId := none,
         error := some "Already processed" },
       { w with stats := { w.stats with
           totalProcessed := w.stats.totalProcessed + 1,
           skipped := w.stats.skipped + 1 } }) := by
  simp only [getEmailById] at hfind
  simp only [processEmail, getEmailById, hfind, hterm, if_true]

/-- C1: for every email whose label set contains `TodoAgent_Processed` or
`TodoAgent_Skip`, `processEmail` returns a success result, creates no
task and applies no label (mailbox, label-write log, task logs all
unchanged) — so a second call on the resulting state again succeeds,
creates no task and changes no label. -/
theorem claim_C1_terminal_idempotence (env : Env) (w : World) (emailId : String)
    (email : EmailData)
    (hfind : getEmailById w emailId = some email)
    (hterm : hasLabel w.cache email "TodoAgent_Processed" = true ∨
      hasLabel w.cache email "TodoAgent_Skip" = true) :
    (processEmail env w emailId).1.success = true ∧
    (processEmail env w emailId).1.error = some "Already processed" ∧
    (processEmail env w emailId).2.emails = w.emails ∧
    (processEmail env w emailId).2.labelWrites = w.labelWrites ∧
    (processEmail env w emailId).2.taskAttempts = w.taskAttempts ∧
    (processEmail env w emailId).2.createdTaskIds = w.createdTaskIds ∧
    (processEmail env (processEmail env w emailId).2 emailId).1.success = true ∧
    (processEmail env (processEmail env w emailId).2 emailId).2.emails = w.emails ∧
    (processEmail env (processEmail env w emailId).2 emailId).2.labelWrites = w.labelWrites ∧
    (processEmail env (processEmail env w emailId).2 emailId).2.taskAttempts = w.taskAttempts := by
  have hterm' : hasProcessedLabel w.cache email = true := by
    unfold hasProcessedLabel
    rcases hterm with h | h <;> simp [h]
  have h1 := processEmail_terminal_eq env w emailId email hfind hterm'
  have h2 := processEmail_terminal_eq env
    { w with stats := { w.stats with
        totalProcessed := w.stats.totalProcessed + 1,
        skipped := w.stats.skipped + 1 } }
    emailId email hfind hterm'
  rw [h1]
  rw [h2]
  exact ⟨rfl, rfl, rfl, rfl, rfl, rfl, rfl, rfl, rfl, rfl⟩

/-- An email already carrying the `TodoAgent_Processed` label id. -/
def emailDone : EmailData := { emailPlain with id := "e-done", labelIds := ["L1"] }

def worldDone : World := { worldEmpty with emails := [emailDone], cache := cacheStd }

theorem claim_C1_witness :
    (processEmail envNull worldDone "e-done").1.success = true ∧
    (processEmail envNull worldDone "e-done").2.taskAttempts = worldDone.taskAttempts ∧
    (processEmail envNull worldDone "e-done").2.labelWrites = worldDone.labelWrites :=
  ⟨(claim_C1_terminal_idempotence envNull worldDone "e-done" emailDone (by decide)
      (Or.inl (by decide))).1,
   (claim_C1_terminal_idempotence envNull worldDone "e-done" emailDone (by decide)
      (Or.inl (by decide))).2.2.2.2.1,
   (claim_C1_terminal_idempotence envNull worldDone "e-done" emailDone (by decide)
      (Or.inl (by decide))).2.2.2.1⟩

end GmailTodo

namespace GmailTodo

/-! ## Claim C4 — rule precedence and first-match-wins -/

theorem evaluateRule_rule_of_matched {e : EmailData} {r : FilterRule}
    (h : (evaluateRule e r).matched = true) : (evaluateRule e r).rule = some r := by
  unfold evaluateRule at h ⊢
  by_cases hx : excludeHit e r = true
  · rw [if_pos hx] at h
    exact absurd h (by simp)
  · rw [if_neg hx] at h ⊢
    simp only at h ⊢
    rw [if_pos h]

theorem bumpRuleStats_id (env : Env) (r : FilterRule) :
    (bumpRuleStats env r).id = r.id := rfl

theorem bumpRuleStats_matched (env : Env) (r : FilterRule) :
    (bumpRuleStats env r).stats.matched = r.stats.matched + 1 := rfl

/-- C4: on a rule set of two active rules that both match the email, with
distinct priorities, the engine takes the rules in descending priority
order (in either encounter order) and stops at the first match: the
result is the higher-priority rule's evaluation, its label is the one
written to the email, its match counter is the one incremented, and the
lower-priority rule is left in the rule store untouched (in particular
its match counter is not incremented). -/
theorem claim_C4_rule_precedence (env : Env) (w : World) (email : EmailData)
    (r1 r2 : FilterRule)
    (horder : w.rules = [r1, r2] ∨ w.rules = [r2, r1])
    (hact1 : r1.active = true) (hact2 : r2.active = true)
    (hm1 : (evaluateRule email r1).matched = true)
    (hm2 : (evaluateRule email r2).matched = true)
    (hpri : r2.priority < r1.priority)
    (hid : (r2.id == r1.id) = false)
    (hlbl : r1.actions.label ≠ "") :
    (processEmailWithRules env w email).1 = evaluateRule email r1 ∧
    (processEmailWithRules env w email).1.rule = some r1 ∧
    (processEmailWithRules env w email).2.labelWrites =
      w.labelWrites ++ [(email.id, r1.actions.label)] ∧
    bumpRuleStats env r1 ∈ (processEmailWithRules env w email).2.rules ∧
    (bumpRuleStats env r1).stats.matched = r1.stats.matched + 1 ∧
    r2 ∈ (processEmailWithRules env w email).2.rules := by
  have hsort : sortRulesDesc (w.rules.filter (fun r => r.active)) = [r1, r2] := by
    rcases horder with h | h <;> rw [h]
    · have : List.filter (fun r => r.active) [r1, r2] = [r1, r2] := by
        simp [List.filter, hact1, hact2]
      rw [this]
      simp only [sortRulesDesc, insertRuleDesc, if_neg (not_lt.mpr (le_of_lt hpri))]
    · have : List.filter (fun r => r.active) [r2, r1] = [r2, r1] := by
        simp [List.filter, hact1, hact2]
      rw [this]
      simp only [sortRulesDesc, insertRuleDesc, if_pos hpri]
  have hfind : findFirstMatchingRule email [r1, r2] = some (r1, evaluateRule email r1) := by
    simp only [findFirstMatchingRule, hm1, if_true]
  have hrules : (processEmailWithRules env w email).2.rules =
      w.rules.map (fun x => if x.id == r1.id then bumpRuleStats env x else x) := by
    simp only [processEmailWithRules, hsort, hfind]
    split <;> simp
  have hid' : ¬ (r2.id = r1.id) := by simpa using hid
  refine ⟨?_, ?_, ?_, ?_, rfl, ?_⟩
  · simp only [processEmailWithRules, hsort, hfind]
  · simp only [processEmailWithRules, hsort, hfind]
    exact evaluateRule_rule_of_matched hm1
  · simp only [processEmailWithRules, hsort, hfind, if_pos hlbl]
    simp
  · rw [hrules]
    rcases horder with h | h <;> rw [h] <;> simp [hid']
  · rw [hrules]
    rcases horder with h | h <;> rw [h] <;> simp [hid']

/-- The same two-criteria rule at a higher priority with a different label
and id: both it and `ruleTwoCriteria` match `emailPlain`. -/
def ruleHigher : FilterRule :=
  { ruleTwoCriteria with
      id := "r-hi",
      priority := 9,
      actions := { label := "TodoAgent_Meeting", priority := none, skipAI := none } }

def worldTwoRules : World :=
  { worldEmpty with
      emails := [emailPlain],
      cache := cacheStd,
      rules := [ruleTwoCriteria, ruleHigher] }

theorem claim_C4_witness :
    (processEmailWithRules envNull worldTwoRules emailPlain).1.rule = some ruleHigher ∧
    (processEmailWithRules envNull worldTwoRules emailPlain).2.labelWrites =
      worldTwoRules.labelWrites ++ [(emailPlain.id, "TodoAgent_Meeting")] ∧
    ruleTwoCriteria ∈ (processEmailWithRules envNull worldTwoRules emailPlain).2.rules :=
  ⟨(claim_C4_rule_precedence envNull worldTwoRules emailPlain ruleHigher ruleTwoCriteria
      (Or.inr (by decide)) (by decide) (by decide) (by decide) (by decide) (by decide)
      (by decide) (by decide)).2.1,
   (claim_C4_rule_precedence envNull worldTwoRules emailPlain ruleHigher ruleTwoCriteria
      (Or.inr (by decide)) (by decide) (by decide) (by decide) (by decide) (by decide)
      (by decide) (by decide)).2.2.1,
   (claim_C4_rule_precedence envNull worldTwoRules emailPlain ruleHigher ruleTwoCriteria
      (Or.inr (by decide)) (by decide) (by decide) (by decide) (by decide) (by decide)
      (by decide) (by decide)).2.2.2.2.2⟩

end GmailTodo

namespace GmailTodo

/-! ## Claim C2 — retry eligibility of `TodoAgent_Failed` emails -/

@[simp] theorem createTask_labelWrites (env : Env) (w : World) (t : TaskData) :
    (createTask env w t).2.labelWrites = w.labelWrites := by
  unfold createTask
  cases h : env.taskOutcome t <;> simp [h]

theorem createTask_not_success (env : Env) (w : World) (t : TaskData)
    (hs : (createTask env w t).1.success = false) :
    (createTask env w t).2.createdTaskIds = w.createdTaskIds := by
  unfold createTask at hs ⊢
  cases h : env.taskOutcome t <;> simp [h] at hs ⊢

@[simp] theorem createTaskFromEmail_labelWrites (env : Env) (w : World)
    (email : EmailData) :
    (createTaskFromEmail env w email).2.labelWrites = w.labelWrites := by
  unfold createTaskFromEmail
  dsimp only
  simp

theorem createTaskFromEmail_not_success (env : Env) (w : World) (email : EmailData)
    (hs : (createTaskFromEmail env w email).1.success = false) :
    (createTaskFromEmail env w email).2.createdTaskIds = w.createdTaskIds := by
  unfold createTaskFromEmail at hs ⊢
  dsimp only at hs ⊢
  exact createTask_not_success env w _ hs

@[simp] theorem processEmailWithRules_createdTaskIds (env : Env) (w : World)
    (email : EmailData) :
    (processEmailWithRules env w email).2.createdTaskIds = w.createdTaskIds := by
  unfold processEmailWithRules
  dsimp only
  split
  · rfl
  · split <;> simp

@[simp] theorem processEmailWithRules_taskAttempts (env : Env) (w : World)
    (email : EmailData) :
    (processEmailWithRules env w email).2.taskAttempts = w.taskAttempts := by
  unfold processEmailWithRules
  dsimp only
  split
  · rfl
  · split <;> simp

/-- If `processLabeledEmail` created a task, it marked the email
`TodoAgent_Processed`. -/
theorem processLabeledEmail_taskWrite (env : Env) (w : World) (email : EmailData) :
    (processLabeledEmail env w email).2.createdTaskIds ≠ w.createdTaskIds →
    (email.id, "TodoAgent_Processed") ∈ (processLabeledEmail env w email).2.labelWrites := by
  unfold processLabeledEmail
  dsimp only
  split
  · intro _
    simp [markStatusLabel]
  · rename_i hsucc
    intro h
    refine absurd ?_ h
    have hs : (createTaskFromEmail env w email).1.success = false :=
      Bool.eq_false_iff.mpr hsucc
    simp [createTaskFromEmail_not_success env w email hs]

/-- Transport of `processLabeledEmail_taskWrite` along an equality of the
baseline log (used where the world argument is a large literal). -/
theorem processLabeledEmail_taskWrite' (env : Env) (w : World) (email : EmailData)
    (base : List String)
    (h : (processLabeledEmail env w email).2.createdTaskIds ≠ base)
    (hbase : w.createdTaskIds = base) :
    (email.id, "TodoAgent_Processed") ∈ (processLabeledEmail env w email).2.labelWrites :=
  processLabeledEmail_taskWrite env w email (by rw [hbase]; exact h)

/-- If basic classification created a task, it marked the email
`TodoAgent_Processed`. -/
theorem processWithBasicClassification_taskWrite (env : Env) (w : World)
    (email : EmailData) :
    (processWithBasicClassification env w email).2.createdTaskIds ≠ w.createdTaskIds →
    (email.id, "TodoAgent_Processed") ∈
      (processWithBasicClassification env w email).2.labelWrites := by
  unfold processWithBasicClassification
  split
  · intro h
    exact absurd (by simp) h
  · dsimp only
    split
    · intro _
      simp [markStatusLabel]
    · rename_i hsucc
      intro h
      refine absurd ?_ h
      have hs : (createTaskFromEmail env w email).1.success = false :=
        Bool.eq_false_iff.mpr hsucc
      simp [createTaskFromEmail_not_success env w email hs]

/-- If the AI path created a task, it marked the email
`TodoAgent_Processed`. -/
theorem processWithAI_taskWrite (env : Env) (w : World) (email : EmailData) :
    (processWithAI env w email).2.createdTaskIds ≠ w.createdTaskIds →
    (email.id, "TodoAgent_Processed") ∈ (processWithAI env w email).2.labelWrites := by
  unfold processWithAI
  split
  · exact processWithBasicClassification_taskWrite env _ email
  · split
    · exact processWithBasicClassification_taskWrite env _ email
    · dsimp only
      split
      · split
        · intro _
          simp [markStatusLabel]
        · rename_i hsucc
          intro h
          refine absurd ?_ h
          have hs := Bool.eq_false_iff.mpr hsucc
          simp [createTaskFromEmail_not_success env _ email hs]
      · intro h
        exact absurd (by simp) h

/-- Transport of `processWithAI_taskWrite` along an equality of the
baseline log. -/
theorem processWithAI_taskWrite' (env : Env) (w : World) (email : EmailData)
    (base : List String)
    (h : (processWithAI env w email).2.createdTaskIds ≠ base)
    (hbase : w.createdTaskIds = base) :
    (email.id, "TodoAgent_Processed") ∈ (processWithAI env w email).2.labelWrites :=
  processWithAI_taskWrite env w email (by rw [hbase]; exact h)

/-- If steps 3-5 of the pipeline created a task, the email was marked
`TodoAgent_Processed`. -/
theorem processEmailAfterChecks_taskWrite (env : Env) (w : World) (emailId : String)
    (email : EmailData) :
    (processEmailAfterChecks env w emailId email).2.createdTaskIds ≠ w.createdTaskIds →
    (email.id, "TodoAgent_Processed") ∈
      (processEmailAfterChecks env w emailId email).2.labelWrites := by
  unfold processEmailAfterChecks
  split
  · exact processLabeledEmail_taskWrite env _ email
  · dsimp only
    split
    · split
      · rename_i updatedEmail hup
        split
        · intro h
          have hid : updatedEmail.id = email.id := getEmailById_some_id hup
          have := processLabeledEmail_taskWrite' env _ updatedEmail _ h (by simp)
          rwa [hid] at this
        · split
          · split
            · intro h
              exact absurd (by simp) h
            · exact fun h => processWithAI_taskWrite' env _ email _ h (by simp)
          · exact fun h => processWithAI_taskWrite' env _ email _ h (by simp)
      · split
        · split
          · intro h
            exact absurd (by simp) h
          · exact fun h => processWithAI_taskWrite' env _ email _ h (by simp)
        · exact fun h => processWithAI_taskWrite' env _ email _ h (by simp)
    · exact fun h => processWithAI_taskWrite' env _ email _ h (by simp)

/-- C2: for every email carrying `TodoAgent_Failed` but no terminal label,
`processEmail` does not short-circuit at the label checks: it is exactly
the continuation `processEmailAfterChecks` (action-label inspection, rule
evaluation, AI/basic classification); and whenever the run created a
task, the `TodoAgent_Processed` terminal marker was written for the
email. -/
theorem claim_C2_failed_retry_eligibility (env : Env) (w : World) (emailId : String)
    (email : EmailData)
    (hfind : getEmailById w emailId = some email)
    (hfail : hasLabel w.cache email "TodoAgent_Failed" = true)
    (hterm : hasProcessedLabel w.cache email = false) :
    processEmail env w emailId =
      processEmailAfterChecks env
        { w with stats := { w.stats with
            totalProcessed := w.stats.totalProcessed + 1 } }
        emailId email ∧
    ((processEmail env w emailId).2.createdTaskIds ≠ w.createdTaskIds →
      (emailId, "TodoAgent_Processed") ∈ (processEmail env w emailId).2.labelWrites) := by
  have hid : email.id = emailId := getEmailById_some_id hfind
  have hskip : hasLabel w.cache email "TodoAgent_Skip" = false := by
    unfold hasProcessedLabel at hterm
    exact (Bool.or_eq_false_iff.mp hterm).2
  have heq : processEmail env w emailId =
      processEmailAfterChecks env
        { w with stats := { w.stats with
            totalProcessed := w.stats.totalProcessed + 1 } }
        emailId email := by
    simp only [getEmailById] at hfind
    simp only [processEmail, getEmailById, hfind, hterm, hskip, Bool.false_eq_true,
      if_false]
  refine ⟨heq, ?_⟩
  rw [heq]
  intro h
  have := processEmailAfterChecks_taskWrite env
    { w with stats := { w.stats with totalProcessed := w.stats.totalProcessed + 1 } }
    emailId email (by simpa using h)
  rwa [hid] at this

def emailFailed : EmailData := { emailPlain with id := "e-fail", labelIds := ["L3"] }

def envTaskOk : Env := { envNull with taskOutcome := fun _ => .ok "T1" }

def worldFailed : World := { worldEmpty with emails := [emailFailed], cache := cacheStd }

theorem claim_C2_witness :
    ("e-fail", "TodoAgent_Processed") ∈
      (processEmail envTaskOk worldFailed "e-fail").2.labelWrites :=
  (claim_C2_failed_retry_eligibility envTaskOk worldFailed "e-fail" emailFailed
      (by decide) (by decide) (by decide)).2 (by decide)

end GmailTodo

namespace GmailTodo

/-! ## Claim C3 — pre-classified path and label-derived task data (code bug)

`processLabeledEmail` computes the label-derived task data (priority 4
for `TodoAgent_Important`) with `extractTaskDataFromLabeledEmail` and
then discards it: the task is created by `createTaskFromEmail(email)`,
which recomputes the priority from subject/body keywords. On an
`Important`-labeled email without urgent keywords the created task has
priority 2, not the label-derived 4 the claim (and the spec) state. -/

/-- An email labeled `TodoAgent_Important` (label id `L4`) whose text
contains no urgent/high keyword and no due-date pattern. -/
def emailImportant : EmailData :=
  { id := "e-imp", from' := "Bob <bob@corp.com>", to' := "me@corp.com",
    subject := "Quarterly report", body := "numbers attached for q3",
    snippet := "numbers attached", labelIds := ["L4"], threadId := "t-imp",
    timestamp := 0 }

/-- A rule that would match `emailImportant` (subject `report`, body
`numbers`) if the rule engine ran. -/
def ruleReport : FilterRule :=
  { ruleTwoCriteria with
      id := "r-report",
      criteria :=
        { emptyCriteria with
            subject := some ["report"],
            bodyKeywords := some ["numbers"] } }

def worldImportant : World :=
  { worldEmpty with
      emails := [emailImportant],
      cache := cacheStd,
      rules := [ruleReport] }

/-- C3 at the failing input: the email is pre-classified (action label,
no terminal label) and the label-derived task data has priority 4; the
pipeline succeeds, skips rule evaluation (the matching rule's stats are
untouched) and AI (`aiProcessed` stays 0), writes `TodoAgent_Processed`
— but the task actually sent to the tracker has keyword-derived
priority 2, not 4: the label-derived task data is computed and
discarded. -/
theorem claim_C3_labeled_priority_bug :
    hasActionLabel worldImportant.cache emailImportant = true ∧
    hasProcessedLabel worldImportant.cache emailImportant = false ∧
    (evaluateRule emailImportant ruleReport).matched = true ∧
    (extractTaskDataFromLabeledEmail worldImportant.cache emailImportant).priority = 4 ∧
    (processEmail envTaskOk worldImportant "e-imp").1.success = true ∧
    (processEmail envTaskOk worldImportant "e-imp").1.taskId = some "T1" ∧
    (processEmail envTaskOk worldImportant "e-imp").2.stats.aiProcessed = 0 ∧
    (processEmail envTaskOk worldImportant "e-imp").2.stats.ruleMatched = 1 ∧
    (processEmail envTaskOk worldImportant "e-imp").2.rules = worldImportant.rules ∧
    ("e-imp", "TodoAgent_Processed") ∈
      (processEmail envTaskOk worldImportant "e-imp").2.labelWrites ∧
    ((processEmail envTaskOk worldImportant "e-imp").2.taskAttempts.map
      (fun t => t.priority)) = [2] := by
  decide

end GmailTodo
